import Mathlib

/-!
Verification of the audio-source component (`src/framework/components/audio-source/component.js`)
and the plane utility (`src/core/shape/plane.js`) of the repository.

The component is embedded value-semantically: `ComponentState` mirrors the fields of
`this.data` plus the enable flags read by the code; every operation returns the new
state together with the list of backend (audio-manager / channel) calls it makes, so
that "no backend call" claims are statements about that list.  Asset resources are
decoded audio buffers, modelled as opaque naturals (heap objects in JS, hence always
truthy, so key presence in the source map coincides with the code's truthiness tests).
The asynchronous resolver `loadAudioSourceAssets` is embedded as a synchronous
subscription phase (the `forEach` body) followed by a settlement phase that delivers
`ready` / `error` callbacks in an arbitrary order, matching the single-threaded
cooperative event model of the engine.
-/

namespace Audio

/-- Decoded audio buffer delivered by the registry (`asset.resource`). -/
abbrev Resource := Nat

/-- A live playback channel as the component observes it: `id` identifies the
concrete backend object (fresh per `playSound` / `playSound3d` call), `is3d`
records whether it is a `Channel3d`, and `paused` / `suspended` are the flags the
component reads and writes. -/
structure Channel where
  id : Nat
  is3d : Bool
  paused : Bool
  suspended : Bool
deriving DecidableEq, Repr

/-- Calls the component makes on the audio backend (manager and channel methods). -/
inductive BackendCall
  | stopCh (id : Nat)
  | pauseCh (id : Nat)
  | unpauseCh (id : Nat)
  | playSound (id : Nat)
  | playSound3d (id : Nat)
  | setLoopCh (id : Nat) (v : Bool)
  | setVolumeCh (id : Nat) (v : Int)
  | setPitchCh (id : Nat) (v : Int)
  | setMinDistanceCh (id : Nat) (v : Int)
  | setMaxDistanceCh (id : Nat) (v : Int)
  | setRollOffFactorCh (id : Nat) (v : Int)
  | setDistanceModelCh (id : Nat) (v : String)
deriving DecidableEq, Repr

/-- The fields of `this.data` the core reads and writes (`sources`,
`currentSource`, `channel`, the parameter set, the `3d` flag and `activate`). -/
structure ComponentData where
  sources : List (String × Resource)
  currentSource : Option String
  channel : Option Channel
  loop : Bool
  volume : Int
  pitch : Int
  minDistance : Int
  maxDistance : Int
  rollOffFactor : Int
  distanceModel : String
  three_d : Bool
  activate : Bool
deriving DecidableEq, Repr

/-- Component state: `this.data` plus the component / entity enable flags and
`this.system.initialized`.  `nextChannelId` models the backend handing out a fresh
channel object on every `playSound` / `playSound3d` call. -/
structure ComponentState where
  data : ComponentData
  enabled : Bool
  entityEnabled : Bool
  systemInitialized : Bool
  nextChannelId : Nat
deriving DecidableEq, Repr

/-- `sources[name]` (presence test; resources are heap objects, always truthy). -/
def lookupSource : List (String × Resource) → String → Option Resource
  | [], _ => none
  | p :: rest, k => if p.1 = k then some p.2 else lookupSource rest k

/-- `sources[name] = res` (replace the value if the key is present, else append). -/
def insertSource (m : List (String × Resource)) (k : String) (v : Resource) :
    List (String × Resource) :=
  match m with
  | [] => [(k, v)]
  | p :: rest => if p.1 = k then (k, v) :: rest else p :: insertSource rest k v

/-- `delete sources[name]`. -/
def removeSource (m : List (String × Resource)) (k : String) : List (String × Resource) :=
  match m with
  | [] => []
  | p :: rest => if p.1 = k then removeSource rest k else p :: removeSource rest k

/-- JS truthiness of a string-or-null value (`null` and the empty string are falsy). -/
def jsTruthyStr : Option String → Bool
  | none => false
  | some s => s ≠ ""

/-- `currentSource || asset.name` (JS `||` keeps a truthy left operand). -/
def jsOrName (cur : Option String) (n : String) : Option String :=
  if jsTruthyStr cur then cur else some n

/-- `stop()`: forward `stop` to the live channel if present and clear the slot. -/
def stop (s : ComponentState) : ComponentState × List BackendCall :=
  match s.data.channel with
  | some c => ({ s with data := { s.data with channel := none } }, [BackendCall.stopCh c.id])
  | none => (s, [])

/-- `pause()`: forward `pause` to the live channel if present. -/
def pause (s : ComponentState) : ComponentState × List BackendCall :=
  match s.data.channel with
  | some c =>
    ({ s with data := { s.data with channel := some { c with paused := true } } },
     [BackendCall.pauseCh c.id])
  | none => (s, [])

/-- `unpause()`: forward `unpause` only if a channel exists and reports paused. -/
def unpause (s : ComponentState) : ComponentState × List BackendCall :=
  match s.data.channel with
  | some c =>
    if c.paused then
      ({ s with data := { s.data with channel := some { c with paused := false } } },
       [BackendCall.unpauseCh c.id])
    else (s, [])
  | none => (s, [])

/-- `play(name)`: no-op when the component or entity is disabled; otherwise stop any
live channel, look the name up in `sources`, and if found start a fresh channel in
the mode given by `data['3d']` (the 3d branch additionally reads the entity's world
position, an external input that does not affect component state) and record
`currentSource`/`channel`.  The argument is `Option String` because the code also
calls `play(this.currentSource)` where `currentSource` may be null. -/
def play (s : ComponentState) (name : Option String) : ComponentState × List BackendCall :=
  if s.enabled && s.entityEnabled then
    let r0 := if s.data.channel.isSome then stop s else (s, [])
    let s1 := r0.1
    match name with
    | some n =>
      match lookupSource s1.data.sources n with
      | some _ =>
        let c : Channel :=
          { id := s1.nextChannelId, is3d := s1.data.three_d, paused := false, suspended := false }
        ({ s1 with
            data := { s1.data with currentSource := some n, channel := some c },
            nextChannelId := s1.nextChannelId + 1 },
         r0.2 ++ [if s1.data.three_d then BackendCall.playSound3d c.id else BackendCall.playSound c.id])
      | none => (s1, r0.2)
    | none => (s1, r0.2)
  else (s, [])

/-- `onSetLoop`: fired with the old and new value; the data slot is already updated. -/
def onSetLoop (s : ComponentState) (oldValue newValue : Bool) :
    ComponentState × List BackendCall :=
  if oldValue ≠ newValue then
    match s.data.channel with
    | some c => (s, [BackendCall.setLoopCh c.id newValue])
    | none => (s, [])
  else (s, [])

/-- `onSetVolume`. -/
def onSetVolume (s : ComponentState) (oldValue newValue : Int) :
    ComponentState × List BackendCall :=
  if oldValue ≠ newValue then
    match s.data.channel with
    | some c => (s, [BackendCall.setVolumeCh c.id newValue])
    | none => (s, [])
  else (s, [])

/-- `onSetPitch`. -/
def onSetPitch (s : ComponentState) (oldValue newValue : Int) :
    ComponentState × List BackendCall :=
  if oldValue ≠ newValue then
    match s.data.channel with
    | some c => (s, [BackendCall.setPitchCh c.id newValue])
    | none => (s, [])
  else (s, [])

/-- `onSetMaxDistance`: only applied when the live channel is a `Channel3d`. -/
def onSetMaxDistance (s : ComponentState) (oldValue newValue : Int) :
    ComponentState × List BackendCall :=
  if oldValue ≠ newValue then
    match s.data.channel with
    | some c => if c.is3d then (s, [BackendCall.setMaxDistanceCh c.id newValue]) else (s, [])
    | none => (s, [])
  else (s, [])

/-- `onSetMinDistance`: only applied when the live channel is a `Channel3d`. -/
def onSetMinDistance (s : ComponentState) (oldValue newValue : Int) :
    ComponentState × List BackendCall :=
  if oldValue ≠ newValue then
    match s.data.channel with
    | some c => if c.is3d then (s, [BackendCall.setMinDistanceCh c.id newValue]) else (s, [])
    | none => (s, [])
  else (s, [])

/-- `onSetRollOffFactor`: only applied when the live channel is a `Channel3d`. -/
def onSetRollOffFactor (s : ComponentState) (oldValue newValue : Int) :
    ComponentState × List BackendCall :=
  if oldValue ≠ newValue then
    match s.data.channel with
    | some c => if c.is3d then (s, [BackendCall.setRollOffFactorCh c.id newValue]) else (s, [])
    | none => (s, [])
  else (s, [])

/-- `onSetDistanceModel`: only applied when the live channel is a `Channel3d`. -/
def onSetDistanceModel (s : ComponentState) (oldValue newValue : String) :
    ComponentState × List BackendCall :=
  if oldValue ≠ newValue then
    match s.data.channel with
    | some c => if c.is3d then (s, [BackendCall.setDistanceModelCh c.id newValue]) else (s, [])
    | none => (s, [])
  else (s, [])

/-- Property assignment `component.loop = v`: the schema setter stores the value in
`this.data` and then fires `set_loop` with the old and new values. -/
def setLoop (s : ComponentState) (v : Bool) : ComponentState × List BackendCall :=
  onSetLoop { s with data := { s.data with loop := v } } s.data.loop v

/-- Property assignment `component.volume = v`. -/
def setVolume (s : ComponentState) (v : Int) : ComponentState × List BackendCall :=
  onSetVolume { s with data := { s.data with volume := v } } s.data.volume v

/-- Property assignment `component.pitch = v`. -/
def setPitch (s : ComponentState) (v : Int) : ComponentState × List BackendCall :=
  onSetPitch { s with data := { s.data with pitch := v } } s.data.pitch v

/-- Property assignment `component.minDistance = v`. -/
def setMinDistance (s : ComponentState) (v : Int) : ComponentState × List BackendCall :=
  onSetMinDistance { s with data := { s.data with minDistance := v } } s.data.minDistance v

/-- Property assignment `component.maxDistance = v`. -/
def setMaxDistance (s : ComponentState) (v : Int) : ComponentState × List BackendCall :=
  onSetMaxDistance { s with data := { s.data with maxDistance := v } } s.data.maxDistance v

/-- Property assignment `component.rollOffFactor = v`. -/
def setRollOffFactor (s : ComponentState) (v : Int) : ComponentState × List BackendCall :=
  onSetRollOffFactor { s with data := { s.data with rollOffFactor := v } } s.data.rollOffFactor v

/-- Property assignment `component.distanceModel = v`. -/
def setDistanceModel (s : ComponentState) (v : String) : ComponentState × List BackendCall :=
  onSetDistanceModel { s with data := { s.data with distanceModel := v } } s.data.distanceModel v

/-- `onSet3d`: when the flag changed, the system is initialized and a current source
exists, capture the live channel's `paused`/`suspended` flags (false/false if none),
rebuild the channel through `play(this.currentSource)`, then write the captured flags
back onto the new channel by direct property assignment (no backend method call). -/
def onSet3d (s : ComponentState) (oldValue newValue : Bool) :
    ComponentState × List BackendCall :=
  if oldValue ≠ newValue then
    if s.systemInitialized && jsTruthyStr s.data.currentSource then
      let captured := match s.data.channel with
        | some c => (c.paused, c.suspended)
        | none => (false, false)
      let r := play s s.data.currentSource
      match r.1.data.channel with
      | some c =>
        ({ r.1 with data := { r.1.data with
            channel := some { c with paused := captured.1, suspended := captured.2 } } }, r.2)
      | none => (r.1, r.2)
    else (s, [])
  else (s, [])

/-- Property assignment `component['3d'] = v` (`setPositional` in the spec's terms). -/
def set3d (s : ComponentState) (v : Bool) : ComponentState × List BackendCall :=
  onSet3d { s with data := { s.data with three_d := v } } s.data.three_d v

/-- `onEnable`: the initial loop requests `registry.load` for referenced assets that
have no resource yet, an external registry effect with no component-state change;
then, if the system is initialized, either autoplay (`activate` set and no live
channel) or `unpause()`. -/
def onEnable (s : ComponentState) : ComponentState × List BackendCall :=
  if s.systemInitialized then
    if s.data.activate && s.data.channel.isNone then
      play s s.data.currentSource
    else
      unpause s
  else (s, [])

/-- `onDisable`: pause the live channel (it is kept, not destroyed). -/
def onDisable (s : ComponentState) : ComponentState × List BackendCall :=
  pause s

/-- `onAssetRemoved`: the handler first unsubscribes itself from the asset's
`remove` event (registry listener bookkeeping, outside `ComponentState`); then, if
the asset's name is a key of `sources`, deletes the entry, and when it is the
current source additionally stops the channel and clears `currentSource`. -/
def onAssetRemoved (s : ComponentState) (name : String) : ComponentState × List BackendCall :=
  if (lookupSource s.data.sources name).isSome then
    let s1 := { s with data := { s.data with sources := removeSource s.data.sources name } }
    if s.data.currentSource = some name then
      let r := stop s1
      ({ r.1 with data := { r.1.data with currentSource := none } }, r.2)
    else (s1, [])
  else (s, [])

/-- Registry-side listener bookkeeping for one asset handle: how many `(handler,
scope)` subscriptions are active for `change` and `remove` (always the method
`onAssetChanged` / `onAssetRemoved` with the component as scope), and which batches'
`_error` closures are subscribed for `error` (each `loadAudioSourceAssets` call
creates a fresh `_error` closure, identified here by its batch id). -/
structure HandleSubs where
  changeSubs : Nat
  removeSubs : Nat
  errorSubs : List Nat
deriving DecidableEq, Repr

/-- A handle with no active listeners. -/
def emptySubs : HandleSubs := { changeSubs := 0, removeSubs := 0, errorSubs := [] }

/-- asset.off: removes every entry matching the method-and-scope pair. -/
def offChange (h : HandleSubs) : HandleSubs := { h with changeSubs := 0 }

/-- asset.on for the change event. -/
def onChange (h : HandleSubs) : HandleSubs := { h with changeSubs := h.changeSubs + 1 }

/-- asset.off for the remove event. -/
def offRemove (h : HandleSubs) : HandleSubs := { h with removeSubs := 0 }

/-- asset.on for the remove event. -/
def onRemove (h : HandleSubs) : HandleSubs := { h with removeSubs := h.removeSubs + 1 }

/-- asset.off for the error event with this batch's `_error` closure: it removes
only entries that are that very closure, so closures subscribed by earlier batches
are untouched. -/
def offError (batchId : Nat) (h : HandleSubs) : HandleSubs :=
  { h with errorSubs := h.errorSubs.filter (fun b => b ≠ batchId) }

/-- asset.on for the error event with this batch's `_error` closure. -/
def onError (batchId : Nat) (h : HandleSubs) : HandleSubs :=
  { h with errorSubs := h.errorSubs ++ [batchId] }

/-- The off/on pairs `loadAudioSourceAssets` performs on one present handle. -/
def subscribeBatch (batchId : Nat) (h : HandleSubs) : HandleSubs :=
  onError batchId (offError batchId (onRemove (offRemove (onChange (offChange h)))))

/-- A registry entry for an asset id: the asset's name and the resource its
`ready` callback will deliver. -/
structure HandleInfo where
  name : String
  resource : Resource
deriving DecidableEq, Repr

/-- The asset registry, keyed by asset id (`app.assets.get(id)`). -/
abbrev Registry := List (Nat × HandleInfo)

/-- `app.assets.get(id)`. -/
def registryGet : Registry → Nat → Option HandleInfo
  | [], _ => none
  | p :: rest, id => if p.1 = id then some p.2 else registryGet rest id

/-- Listener state for all handles, keyed by asset id. -/
def updateSubs (m : List (Nat × HandleSubs)) (id : Nat) (f : HandleSubs → HandleSubs) :
    List (Nat × HandleSubs) :=
  match m with
  | [] => [(id, f emptySubs)]
  | p :: rest => if p.1 = id then (p.1, f p.2) :: rest else p :: updateSubs rest id f

/-- Look up a handle's listener state (no listeners if never touched). -/
def getSubs (m : List (Nat × HandleSubs)) (id : Nat) : HandleSubs :=
  match m with
  | [] => emptySubs
  | p :: rest => if p.1 = id then p.2 else getSubs rest id

/-- The state of one `loadAudioSourceAssets` invocation: the component, the batch's
local `sources` / `currentSource` / `count` variables, how many times `_done` has
run, the registry listener state, the ids with a one-shot `add:` listener, and the
backend calls made so far. -/
structure ResolveState where
  comp : ComponentState
  sources : List (String × Resource)
  currentSource : Option String
  count : Int
  doneCount : Nat
  subs : List (Nat × HandleSubs)
  addSubs : List Nat
  calls : List BackendCall
deriving DecidableEq, Repr

/-- `_done`: commit the accumulated entries and the chosen current source to
`this.data`, then `if (this.enabled && this.activate && currentSource) this.onEnable()`. -/
def runDone (st : ResolveState) : ResolveState :=
  let comp1 := { st.comp with data :=
    { st.comp.data with sources := st.sources, currentSource := st.currentSource } }
  let st1 := { st with comp := comp1, doneCount := st.doneCount + 1 }
  if comp1.enabled && comp1.data.activate && jsTruthyStr st.currentSource then
    let r := onEnable comp1
    { st1 with comp := r.1, calls := st1.calls ++ r.2 }
  else st1

/-- One iteration of the `assets.forEach` body.  A present handle: record
`currentSource = currentSource || asset.name`, replace-and-resubscribe the
`change`/`remove`/`error` listeners, and register the `ready` callback (its firing
is a settlement event; the conditional `assets.load` request is an external registry
effect).  An absent handle: `count--`, run `_done` if the count reached zero, and
register a one-shot `add:` listener for the id. -/
def syncOne (reg : Registry) (batchId : Nat) (st : ResolveState) (id : Nat) : ResolveState :=
  match registryGet reg id with
  | some h =>
    { st with currentSource := jsOrName st.currentSource h.name,
              subs := updateSubs st.subs id (subscribeBatch batchId) }
  | none =>
    let st1 := { st with count := st.count - 1 }
    let st2 := if st1.count = 0 then runDone st1 else st1
    { st2 with addSubs := st2.addSubs ++ [id] }

/-- A settlement event for a subscribed asset: its `ready` callback fires with the
decoded resource, or its `error` event fires. -/
inductive SettleEvent
  | ready (id : Nat)
  | err (id : Nat)
deriving DecidableEq, Repr

/-- Deliver one settlement event.  `ready`: `sources[asset.name] = asset.resource;
count--; if (count === 0) _done();`.  `error` (the `_error` closure): `count--;`
with no completion check. -/
def settleOne (reg : Registry) (st : ResolveState) (e : SettleEvent) : ResolveState :=
  match e with
  | .ready id =>
    match registryGet reg id with
    | some h =>
      let st1 := { st with sources := insertSource st.sources h.name h.resource,
                           count := st.count - 1 }
      if st1.count = 0 then runDone st1 else st1
    | none => st
  | .err _ => { st with count := st.count - 1 }

/-- Batch-local state at entry of `loadAudioSourceAssets`: fresh `sources`,
`currentSource` and `count = assets.length`; listener state carried over. -/
def initResolve (comp : ComponentState) (subs0 : List (Nat × HandleSubs)) (ids : List Nat) :
    ResolveState :=
  { comp := comp, sources := [], currentSource := none, count := (ids.length : Int),
    doneCount := 0, subs := subs0, addSubs := [], calls := [] }

/-- The synchronous part of `loadAudioSourceAssets(ids)`: the `forEach` over the
looked-up handles. -/
def loadAudioSourceAssets (reg : Registry) (batchId : Nat) (comp : ComponentState)
    (subs0 : List (Nat × HandleSubs)) (ids : List Nat) : ResolveState :=
  ids.foldl (syncOne reg batchId) (initResolve comp subs0 ids)

/-- A full batch run: the synchronous phase followed by a list of settlement events
delivered by the event queue. -/
def resolveRun (reg : Registry) (batchId : Nat) (comp : ComponentState)
    (subs0 : List (Nat × HandleSubs)) (ids : List Nat) (events : List SettleEvent) :
    ResolveState :=
  events.foldl (settleOne reg) (loadAudioSourceAssets reg batchId comp subs0 ids)

/-- Whether an id is present in the registry with a truthy (nonempty) asset name. -/
def presentWithName (reg : Registry) (id : Nat) : Bool :=
  match registryGet reg id with
  | some h => h.name ≠ ""
  | none => false

/-- The name of the first id in input order whose handle is present with a truthy
name: the value the batch's `currentSource` variable holds after the `forEach`. -/
def firstPresentName (reg : Registry) : List Nat → Option String
  | [] => none
  | id :: rest =>
    match registryGet reg id with
    | some h => if h.name = "" then firstPresentName reg rest else some h.name
    | none => firstPresentName reg rest

/-- A concrete baseline component: enabled, initialized, autoActivate off, nothing
resolved yet. -/
def comp0 : ComponentState :=
  { data := { sources := [], currentSource := none, channel := none, loop := false,
              volume := 1, pitch := 1, minDistance := 1, maxDistance := 10000,
              rollOffFactor := 1, distanceModel := "inverse", three_d := false,
              activate := false },
    enabled := true, entityEnabled := true, systemInitialized := true, nextChannelId := 0 }

/-- Registry with a single present asset id 1 named "a". -/
def reg1 : Registry := [(1, { name := "a", resource := 7 })]

/-- Registry with present assets id 1 named "a" and id 2 named "b". -/
def reg2 : Registry := [(1, { name := "a", resource := 7 }), (2, { name := "b", resource := 5 })]

/-- The invariant carried through the settlement phase: the batch-local
`currentSource` variable is fixed, and once `_done` has run at least once the
component's committed `currentSource` equals it. -/
def ResolveInv (cs0 : Option String) (st : ResolveState) : Prop :=
  st.currentSource = cs0 ∧ (1 ≤ st.doneCount → st.comp.data.currentSource = cs0)

/-- Baseline component with one resolved source "a" selected as current and a live
paused, suspended non-positional channel (fresh backend ids start at 1). -/
def compC5 : ComponentState :=
  { comp0 with
      data := { comp0.data with
        sources := [("a", 7)], currentSource := some "a",
        channel := some { id := 0, is3d := false, paused := true, suspended := true } },
      nextChannelId := 1 }

end Audio


namespace Geom

/-- Three-component vector over the rationals (the claim under verification is
structural, not numeric, so exact arithmetic stands in for JS doubles). -/
structure Vec3 where
  x : ℚ
  y : ℚ
  z : ℚ
deriving DecidableEq, Repr

/-- `Vec3#dot`. -/
def dot (a b : Vec3) : ℚ := a.x * b.x + a.y * b.y + a.z * b.z

/-- `Vec3#lerp(lhs, rhs, alpha)`. -/
def lerp (a b : Vec3) (t : ℚ) : Vec3 :=
  { x := a.x + t * (b.x - a.x), y := a.y + t * (b.y - a.y), z := a.z + t * (b.z - a.z) }

/-- An infinite plane: a point on it and its normal. -/
structure Plane where
  point : Vec3
  normal : Vec3
deriving DecidableEq, Repr

/-- JS division restricted to finite results: a zero denominator yields NaN or an
infinity, for which both comparisons in `t >= 0 && t <= 1` are false, modelled by
`none`. -/
def jsDiv (a b : ℚ) : Option ℚ := if b = 0 then none else some (a / b)

/-- Result of `intersectsLine`: the returned boolean, the (possibly updated)
out-parameter, the plane after the call, and whether the out-parameter was written. -/
structure IntersectResult where
  result : Bool
  point : Option Vec3
  plane : Plane
  wrote : Bool
deriving DecidableEq, Repr

/-- The tail of `intersectsLine`: `if (intersects && point) point.lerp(...); return
intersects;` — the out-parameter receives the hit point exactly when the test
succeeded and the parameter was supplied. -/
def writeBack (intersects : Bool) (hit : Vec3) (point : Option Vec3) (p : Plane) :
    IntersectResult :=
  match intersects, point with
  | true, some _ => { result := true, point := some hit, plane := p, wrote := true }
  | b, q => { result := b, point := q, plane := p, wrote := false }

/-- `Plane#intersectsLine(start, end, point)`: computes the line parameter `t` of
the intersection, returns whether `0 <= t <= 1`, and copies the lerped intersection
into the optional out-parameter only when intersecting and supplied. -/
def intersectsLine (p : Plane) (start e : Vec3) (point : Option Vec3) : IntersectResult :=
  let d := -(dot p.normal p.point)
  let d0 := dot p.normal start + d
  let d1 := dot p.normal e + d
  let t := jsDiv d0 (d0 - d1)
  let intersects := match t with
    | some tv => decide (0 ≤ tv) && decide (tv ≤ 1)
    | none => false
  writeBack intersects (lerp start e (t.getD 0)) point p

end Geom

namespace Audio

theorem stop_currentSource (s : ComponentState) :
    (stop s).1.data.currentSource = s.data.currentSource := by
  cases h : s.data.channel <;> simp [stop, h]

theorem stop_sources (s : ComponentState) :
    (stop s).1.data.sources = s.data.sources := by
  cases h : s.data.channel <;> simp [stop, h]

theorem unpause_currentSource (s : ComponentState) :
    (unpause s).1.data.currentSource = s.data.currentSource := by
  cases h : s.data.channel with
  | none => simp [unpause, h]
  | some c => by_cases hp : c.paused = true <;> simp [unpause, h, hp]

/-- `play(this.currentSource)` leaves `currentSource` at its prior value: either the
lookup succeeds and the same name is written back, or nothing is written. -/
theorem play_self_currentSource (s : ComponentState) :
    (play s s.data.currentSource).1.data.currentSource = s.data.currentSource := by
  by_cases he : (s.enabled && s.entityEnabled) = true
  · cases hch : s.data.channel with
    | none =>
      cases hcs : s.data.currentSource with
      | none => simp [play, he, hch, hcs]
      | some n =>
        cases hl : lookupSource s.data.sources n with
        | none => simp [play, he, hch, hcs, hl]
        | some r => simp [play, he, hch, hcs, hl]
    | some c =>
      cases hcs : s.data.currentSource with
      | none => simp [play, stop, he, hch, hcs]
      | some n =>
        cases hl : lookupSource s.data.sources n with
        | none => simp [play, stop, he, hch, hcs, hl]
        | some r => simp [play, stop, he, hch, hcs, hl]
  · simp [play, he]

theorem onEnable_currentSource (s : ComponentState) :
    (onEnable s).1.data.currentSource = s.data.currentSource := by
  by_cases hi : s.systemInitialized = true
  · by_cases ha : (s.data.activate && s.data.channel.isNone) = true
    · simp [onEnable, hi, ha, play_self_currentSource]
    · simp [onEnable, hi, ha, unpause_currentSource]
  · simp [onEnable, hi]

theorem runDone_currentSource (st : ResolveState) :
    (runDone st).currentSource = st.currentSource := by
  unfold runDone
  dsimp only
  split <;> rfl

theorem runDone_comp_currentSource (st : ResolveState) :
    (runDone st).comp.data.currentSource = st.currentSource := by
  unfold runDone
  dsimp only
  split
  · rw [onEnable_currentSource]
  · rfl

theorem runDone_doneCount (st : ResolveState) :
    (runDone st).doneCount = st.doneCount + 1 := by
  unfold runDone
  dsimp only
  split <;> rfl

theorem settleOne_inv (reg : Registry) (cs0 : Option String) (st : ResolveState)
    (e : SettleEvent) (h : ResolveInv cs0 st) : ResolveInv cs0 (settleOne reg st e) := by
  obtain ⟨h1, h2⟩ := h
  cases e with
  | err i => exact ⟨h1, h2⟩
  | ready i =>
    cases hr : registryGet reg i with
    | none => simpa [settleOne, hr] using ⟨h1, h2⟩
    | some hi =>
      simp only [settleOne, hr]
      dsimp only
      split
      · exact ⟨by rw [runDone_currentSource]; exact h1,
               fun _ => by rw [runDone_comp_currentSource]; exact h1⟩
      · exact ⟨h1, h2⟩

theorem settleAll_inv (reg : Registry) (cs0 : Option String) :
    ∀ (events : List SettleEvent) (st : ResolveState), ResolveInv cs0 st →
      ResolveInv cs0 (events.foldl (settleOne reg) st)
  | [], _, h => h
  | e :: es, st, h => settleAll_inv reg cs0 es _ (settleOne_inv reg cs0 st e h)

theorem syncOne_cs_absent (reg : Registry) (k : Nat) (st : ResolveState) (id : Nat)
    (hr : registryGet reg id = none) :
    (syncOne reg k st id).currentSource = st.currentSource := by
  simp only [syncOne, hr]
  dsimp only
  split
  · rw [runDone_currentSource]
  · rfl

theorem syncOne_cs_present (reg : Registry) (k : Nat) (st : ResolveState) (id : Nat)
    (hi : HandleInfo) (hr : registryGet reg id = some hi) :
    (syncOne reg k st id).currentSource = jsOrName st.currentSource hi.name := by
  simp [syncOne, hr]

/-- Once the batch's `currentSource` variable holds a truthy name, the rest of the
`forEach` leaves it alone (`currentSource || asset.name` keeps a truthy left side). -/
theorem sync_cs_truthy (reg : Registry) (k : Nat) :
    ∀ (ids : List Nat) (st : ResolveState), jsTruthyStr st.currentSource = true →
      (ids.foldl (syncOne reg k) st).currentSource = st.currentSource
  | [], _, _ => rfl
  | id :: rest, st, h => by
    have hstep : (syncOne reg k st id).currentSource = st.currentSource := by
      cases hr : registryGet reg id with
      | none => exact syncOne_cs_absent reg k st id hr
      | some hi => rw [syncOne_cs_present reg k st id hi hr, jsOrName]; simp [h]
    rw [List.foldl_cons,
        sync_cs_truthy reg k rest (syncOne reg k st id) (by rw [hstep]; exact h), hstep]

/-- Starting from a null `currentSource`, the `forEach` over ids whose handles are
all present with truthy names leaves `currentSource` at the first such name. -/
theorem sync_cs_firstPresent (reg : Registry) (k : Nat) :
    ∀ (ids : List Nat) (st : ResolveState),
      (∀ id ∈ ids, presentWithName reg id = true) →
      st.currentSource = none →
      (ids.foldl (syncOne reg k) st).currentSource = firstPresentName reg ids
  | [], st, _, h0 => by simpa [firstPresentName] using h0
  | id :: rest, st, h, h0 => by
    have hid : presentWithName reg id = true := h id (List.mem_cons_self id rest)
    cases hr : registryGet reg id with
    | none => rw [presentWithName, hr] at hid; exact absurd hid (by simp)
    | some hi =>
      have hname : hi.name ≠ "" := by
        rw [presentWithName, hr] at hid
        simpa using hid
      have hstep : (syncOne reg k st id).currentSource = some hi.name := by
        rw [syncOne_cs_present reg k st id hi hr, h0, jsOrName]
        simp [jsTruthyStr]
      rw [List.foldl_cons,
          sync_cs_truthy reg k rest _ (by rw [hstep]; simpa [jsTruthyStr] using hname),
          hstep]
      simp [firstPresentName, hr, hname]

/-- When every id's handle is present, the `forEach` never decrements the count and
never calls `_done`: it only touches `currentSource` and the listener state. -/
theorem sync_preserved (reg : Registry) (k : Nat) :
    ∀ (ids : List Nat) (st : ResolveState),
      (∀ id ∈ ids, (registryGet reg id).isSome = true) →
      (ids.foldl (syncOne reg k) st).comp = st.comp ∧
      (ids.foldl (syncOne reg k) st).count = st.count ∧
      (ids.foldl (syncOne reg k) st).doneCount = st.doneCount
  | [], _, _ => ⟨rfl, rfl, rfl⟩
  | id :: rest, st, h => by
    have hid : (registryGet reg id).isSome = true := h id (List.mem_cons_self id rest)
    cases hr : registryGet reg id with
    | none => rw [hr] at hid; exact absurd hid (by simp)
    | some hi =>
      have ih := sync_preserved reg k rest (syncOne reg k st id)
        (fun i hmem => h i (List.mem_cons_of_mem id hmem))
      rw [List.foldl_cons]
      refine ⟨?_, ?_, ?_⟩
      · rw [ih.1]; simp [syncOne, hr]
      · rw [ih.2.1]; simp [syncOne, hr]
      · rw [ih.2.2]; simp [syncOne, hr]

/-- Deleting a key really removes it from the map. -/
theorem lookup_removeSource_self (m : List (String × Resource)) (k : String) :
    lookupSource (removeSource m k) k = none := by
  induction m with
  | nil => rfl
  | cons p rest ih =>
    by_cases h : p.1 = k <;> simp [removeSource, lookupSource, h, ih]

/-- Deleting a key leaves every other key's entry alone. -/
theorem lookup_removeSource_other (m : List (String × Resource)) (k m' : String)
    (h : m' ≠ k) : lookupSource (removeSource m k) m' = lookupSource m m' := by
  induction m with
  | nil => rfl
  | cons p rest ih =>
    by_cases hp : p.1 = k
    · have hpm : p.1 ≠ m' := by rw [hp]; exact fun e => h e.symm
      simp [removeSource, lookupSource, hp, hpm, ih, Ne.symm h]
    · by_cases hm : p.1 = m' <;> simp [removeSource, lookupSource, hp, hm, ih, h]

end Audio

/-- The write-back step of `intersectsLine` never touches the plane, writes exactly
when the test succeeded and an out-parameter was supplied, and otherwise returns
the out-parameter unchanged. -/
theorem writeBack_frame (b : Bool) (hit : Geom.Vec3) (q : Option Geom.Vec3)
    (p : Geom.Plane) :
    (Geom.writeBack b hit q p).plane = p ∧
    (Geom.writeBack b hit q p).wrote = ((Geom.writeBack b hit q p).result && q.isSome) ∧
    ((Geom.writeBack b hit q p).wrote = false → (Geom.writeBack b hit q p).point = q) := by
  cases b <;> cases q <;> simp [Geom.writeBack]

/-- C10: `Plane.intersectsLine` leaves the plane's own `point` and `normal` fields
unmodified in every call, writes to the optional out-parameter exactly when it
returns true and the parameter was supplied, and when it did not write, the
out-parameter is unchanged. -/
theorem intersectsLine_frame (p : Geom.Plane) (a b : Geom.Vec3) (q : Option Geom.Vec3) :
    (Geom.intersectsLine p a b q).plane = p ∧
    (Geom.intersectsLine p a b q).wrote =
      ((Geom.intersectsLine p a b q).result && q.isSome) ∧
    ((Geom.intersectsLine p a b q).wrote = false →
      (Geom.intersectsLine p a b q).point = q) :=
  writeBack_frame _ _ _ _

/-- C8: every parameter setter invoked with the value currently stored performs no
backend call, whatever the channel state. -/
theorem setters_idempotent_no_backend (s : Audio.ComponentState) :
    (Audio.setLoop s s.data.loop).2 = [] ∧
    (Audio.setVolume s s.data.volume).2 = [] ∧
    (Audio.setPitch s s.data.pitch).2 = [] ∧
    (Audio.setMinDistance s s.data.minDistance).2 = [] ∧
    (Audio.setMaxDistance s s.data.maxDistance).2 = [] ∧
    (Audio.setRollOffFactor s s.data.rollOffFactor).2 = [] ∧
    (Audio.setDistanceModel s s.data.distanceModel).2 = [] := by
  simp [Audio.setLoop, Audio.setVolume, Audio.setPitch, Audio.setMinDistance,
    Audio.setMaxDistance, Audio.setRollOffFactor, Audio.setDistanceModel,
    Audio.onSetLoop, Audio.onSetVolume, Audio.onSetPitch, Audio.onSetMinDistance,
    Audio.onSetMaxDistance, Audio.onSetRollOffFactor, Audio.onSetDistanceModel]

/-- C1: evaluation at the failing input.  A batch over the single present asset
id 1 whose only settlement is an `error` event drives the pending count to zero,
yet `_done` never runs (the error callback only decrements), so nothing is
committed to the component's source map. -/
theorem error_last_batch_never_finalizes :
    (Audio.resolveRun Audio.reg1 1 Audio.comp0 [] [1] [Audio.SettleEvent.err 1]).count = 0 ∧
    (Audio.resolveRun Audio.reg1 1 Audio.comp0 [] [1] [Audio.SettleEvent.err 1]).doneCount = 0 ∧
    (Audio.resolveRun Audio.reg1 1 Audio.comp0 [] [1]
      [Audio.SettleEvent.err 1]).comp = Audio.comp0 := by
  decide

/-- C3 counterexample: invoking `loadAudioSourceAssets` with an empty id list never
runs the completion step (`_done` is only reached from the per-asset callbacks, and
there are none), refuting the claim that completion runs exactly once. -/
theorem resolve_empty_no_done :
    (Audio.resolveRun Audio.reg1 1 Audio.comp0 [] [] []).doneCount = 0 ∧
    (Audio.resolveRun Audio.reg1 1 Audio.comp0 [] [] []).comp = Audio.comp0 := by
  decide

/-- C3 amended: a resolve over an empty id list returns with the completion step
never run and the component's source map and current source unchanged. -/
theorem resolve_empty_unchanged (reg : Audio.Registry) (k : Nat)
    (comp : Audio.ComponentState) (subs0 : List (Nat × Audio.HandleSubs)) :
    (Audio.resolveRun reg k comp subs0 [] []).doneCount = 0 ∧
    (Audio.resolveRun reg k comp subs0 [] []).comp = comp := by
  exact ⟨rfl, rfl⟩

/-- C2 counterexample: for ids ["a", "b"] (ids 1 and 2) where "a" errors first and
"b" then resolves, the batch finalizes once with SourceMap = entry for "b" only, but
`currentSource` is "a" — the first *present* name, recorded at subscription time —
not "b" as the claim states. -/
theorem resolve_scenario_currentSource_counterexample :
    (Audio.resolveRun Audio.reg2 1 Audio.comp0 [] [1, 2]
      [Audio.SettleEvent.err 1, Audio.SettleEvent.ready 2]).doneCount = 1 ∧
    (Audio.resolveRun Audio.reg2 1 Audio.comp0 [] [1, 2]
      [Audio.SettleEvent.err 1, Audio.SettleEvent.ready 2]).comp.data.sources = [("b", 5)] ∧
    (Audio.resolveRun Audio.reg2 1 Audio.comp0 [] [1, 2]
      [Audio.SettleEvent.err 1, Audio.SettleEvent.ready 2]).comp.data.currentSource = some "a" ∧
    (Audio.resolveRun Audio.reg2 1 Audio.comp0 [] [1, 2]
      [Audio.SettleEvent.err 1, Audio.SettleEvent.ready 2]).comp.data.currentSource ≠
      some "b" := by
  decide

/-- C2 amended: whenever a resolve batch over ids whose handles are all present
(with truthy names) finalizes, the committed `currentSource` is the name of the
first id in input order — whether or not that asset resolved successfully. -/
theorem resolve_currentSource_firstPresent
    (reg : Audio.Registry) (k : Nat) (comp : Audio.ComponentState)
    (subs0 : List (Nat × Audio.HandleSubs)) (ids : List Nat)
    (events : List Audio.SettleEvent)
    (hpres : ∀ id ∈ ids, Audio.presentWithName reg id = true)
    (hdone : 1 ≤ (Audio.resolveRun reg k comp subs0 ids events).doneCount) :
    (Audio.resolveRun reg k comp subs0 ids events).comp.data.currentSource =
      Audio.firstPresentName reg ids := by
  have hsome : ∀ id ∈ ids, (Audio.registryGet reg id).isSome = true := by
    intro i hmem
    have hp := hpres i hmem
    cases hr : Audio.registryGet reg i with
    | none => rw [Audio.presentWithName, hr] at hp; exact absurd hp (by simp)
    | some _ => rfl
  have hrun : Audio.resolveRun reg k comp subs0 ids events =
      events.foldl (Audio.settleOne reg)
        (ids.foldl (Audio.syncOne reg k) (Audio.initResolve comp subs0 ids)) := rfl
  have hpre := Audio.sync_preserved reg k ids (Audio.initResolve comp subs0 ids) hsome
  have hcs := Audio.sync_cs_firstPresent reg k ids (Audio.initResolve comp subs0 ids) hpres rfl
  have hinv : Audio.ResolveInv (Audio.firstPresentName reg ids)
      (ids.foldl (Audio.syncOne reg k) (Audio.initResolve comp subs0 ids)) := by
    refine ⟨hcs, fun hd => ?_⟩
    rw [hpre.2.2] at hd
    exact absurd hd (by simp [Audio.initResolve])
  have hfin := Audio.settleAll_inv reg (Audio.firstPresentName reg ids) events _ hinv
  rw [hrun]
  exact hfin.2 (by rw [← hrun]; exact hdone)

/-- C2 witness: the amended theorem applied to the concrete two-asset scenario
(asset 1 "a" errors, asset 2 "b" resolves), whose finalized current source is the
first present name "a". -/
theorem resolve_currentSource_firstPresent_witness :
    (Audio.resolveRun Audio.reg2 1 Audio.comp0 [] [1, 2]
      [Audio.SettleEvent.err 1, Audio.SettleEvent.ready 2]).comp.data.currentSource =
      Audio.firstPresentName Audio.reg2 [1, 2] :=
  resolve_currentSource_firstPresent Audio.reg2 1 Audio.comp0 [] [1, 2]
    [Audio.SettleEvent.err 1, Audio.SettleEvent.ready 2] (by decide) (by decide)

/-- C4: evaluation at the failing input.  Two successive `loadAudioSourceAssets`
calls (batches 1 and 2) over the same present handle leave exactly one `change` and
one `remove` listener, but two active `error` listeners: each batch's
`asset.off('error', _error, this)` can only remove its own fresh `_error` closure,
never the one a previous batch subscribed. -/
theorem repeated_resolve_duplicate_error_listeners :
    Audio.getSubs
      (Audio.loadAudioSourceAssets Audio.reg1 2
        (Audio.loadAudioSourceAssets Audio.reg1 1 Audio.comp0 [] [1]).comp
        (Audio.loadAudioSourceAssets Audio.reg1 1 Audio.comp0 [] [1]).subs [1]).subs 1 =
      { changeSubs := 1, removeSubs := 1, errorSubs := [1, 2] } := by
  decide

/-- C5: with the component initialized and enabled, a current source resolved, and
the live channel paused with suspended value `c.suspended`, `setPositional(true)`
followed by `setPositional(false)` rebuilds the channel on each call (two fresh
backend channels are consumed) and reapplies the captured flags, so after both
swaps the live channel is non-positional with `paused = true` and the original
suspended value. -/
theorem setPositional_swap_preserves_pause
    (s : Audio.ComponentState) (c : Audio.Channel) (n : String) (r : Audio.Resource)
    (hen : s.enabled = true) (hent : s.entityEnabled = true)
    (hinit : s.systemInitialized = true) (h3d : s.data.three_d = false)
    (hcs : s.data.currentSource = some n) (hn : n ≠ "")
    (hsrc : Audio.lookupSource s.data.sources n = some r)
    (hch : s.data.channel = some c) (hp : c.paused = true) :
    ((Audio.set3d (Audio.set3d s true).1 false).1).data.channel =
      some { id := s.nextChannelId + 1, is3d := false, paused := true,
             suspended := c.suspended } ∧
    (Audio.set3d (Audio.set3d s true).1 false).1.nextChannelId = s.nextChannelId + 2 := by
  obtain ⟨⟨srcs, cs, ch, lp, vol, pit, mnd, mxd, rof, dm, td, act⟩, en, ent, init, nid⟩ := s
  obtain ⟨cid, c3, cp, csus⟩ := c
  simp only at hen hent hinit h3d hcs hsrc hch hp
  subst hen hent hinit h3d hcs hch hp
  simp [Audio.set3d, Audio.onSet3d, Audio.play, Audio.stop, Audio.jsTruthyStr, hsrc, hn]

/-- C5 witness: the swap theorem at the concrete state `compC5` (source "a"
resolved and current, channel paused and suspended). -/
theorem setPositional_swap_preserves_pause_witness :
    ((Audio.set3d (Audio.set3d Audio.compC5 true).1 false).1).data.channel =
      some { id := Audio.compC5.nextChannelId + 1, is3d := false, paused := true,
             suspended := true } ∧
    (Audio.set3d (Audio.set3d Audio.compC5 true).1 false).1.nextChannelId =
      Audio.compC5.nextChannelId + 2 :=
  setPositional_swap_preserves_pause Audio.compC5
    { id := 0, is3d := false, paused := true, suspended := true } "a" 7
    rfl rfl rfl rfl rfl (by decide) rfl rfl rfl

/-- C6: `onDisable` pauses the live channel without destroying it, and a subsequent
`onEnable` with the system initialized and `activate` (autoActivate) false resumes
that very channel through `unpause` — same backend channel id, no `play`. -/
theorem disable_enable_resumes
    (s : Audio.ComponentState) (c : Audio.Channel)
    (hinit : s.systemInitialized = true) (hact : s.data.activate = false)
    (hch : s.data.channel = some c) :
    (Audio.onDisable s).1.data.channel = some { c with paused := true } ∧
    (Audio.onDisable s).2 = [Audio.BackendCall.pauseCh c.id] ∧
    (Audio.onEnable (Audio.onDisable s).1).1.data.channel = some { c with paused := false } ∧
    (Audio.onEnable (Audio.onDisable s).1).2 = [Audio.BackendCall.unpauseCh c.id] := by
  obtain ⟨⟨srcs, cs, ch, lp, vol, pit, mnd, mxd, rof, dm, td, act⟩, en, ent, init, nid⟩ := s
  obtain ⟨cid, c3, cp, csus⟩ := c
  simp only at hinit hact hch
  subst hinit hact hch
  simp [Audio.onDisable, Audio.onEnable, Audio.pause, Audio.unpause]

/-- C6 witness: disable-then-enable at the concrete state `compC5` (whose channel
is live), resuming backend channel 0. -/
theorem disable_enable_resumes_witness :
    (Audio.onDisable Audio.compC5).1.data.channel =
      some { id := 0, is3d := false, paused := true, suspended := true } ∧
    (Audio.onDisable Audio.compC5).2 = [Audio.BackendCall.pauseCh 0] ∧
    (Audio.onEnable (Audio.onDisable Audio.compC5).1).1.data.channel =
      some { id := 0, is3d := false, paused := false, suspended := true } ∧
    (Audio.onEnable (Audio.onDisable Audio.compC5).1).2 =
      [Audio.BackendCall.unpauseCh 0] :=
  disable_enable_resumes Audio.compC5
    { id := 0, is3d := false, paused := true, suspended := true } rfl rfl rfl

/-- C7: a `remove` event for an asset whose name is a key of the source map deletes
that entry; when the name is the current source the live channel (if any) is
stopped and released and `currentSource` is cleared; otherwise `currentSource`, the
channel, and the backend are untouched. -/
theorem onAssetRemoved_spec (s : Audio.ComponentState) (name : String) (r : Audio.Resource)
    (hmem : Audio.lookupSource s.data.sources name = some r) :
    Audio.lookupSource (Audio.onAssetRemoved s name).1.data.sources name = none ∧
    (Audio.onAssetRemoved s name).1.data.sources =
      Audio.removeSource s.data.sources name ∧
    (s.data.currentSource = some name →
      (Audio.onAssetRemoved s name).1.data.channel = none ∧
      (Audio.onAssetRemoved s name).1.data.currentSource = none) ∧
    (s.data.currentSource = some name → s.data.channel = none →
      (Audio.onAssetRemoved s name).2 = []) ∧
    (s.data.currentSource = some name → ∀ c, s.data.channel = some c →
      (Audio.onAssetRemoved s name).2 = [Audio.BackendCall.stopCh c.id]) ∧
    (s.data.currentSource ≠ some name →
      (Audio.onAssetRemoved s name).1.data.currentSource = s.data.currentSource ∧
      (Audio.onAssetRemoved s name).1.data.channel = s.data.channel ∧
      (Audio.onAssetRemoved s name).2 = []) := by
  by_cases hcur : s.data.currentSource = some name
  · cases hch : s.data.channel <;>
      simp [Audio.onAssetRemoved, Audio.stop, hmem, hcur, hch,
        Audio.lookup_removeSource_self]
  · simp [Audio.onAssetRemoved, Audio.stop, hmem, hcur, Audio.lookup_removeSource_self]

/-- C7 witness: removal of the current source "a" at the concrete state `compC5`
stops and releases the live channel and clears the current source. -/
theorem onAssetRemoved_spec_witness :
    Audio.lookupSource (Audio.onAssetRemoved Audio.compC5 "a").1.data.sources "a" = none ∧
    (Audio.onAssetRemoved Audio.compC5 "a").1.data.sources =
      Audio.removeSource Audio.compC5.data.sources "a" ∧
    (Audio.compC5.data.currentSource = some "a" →
      (Audio.onAssetRemoved Audio.compC5 "a").1.data.channel = none ∧
      (Audio.onAssetRemoved Audio.compC5 "a").1.data.currentSource = none) ∧
    (Audio.compC5.data.currentSource = some "a" → Audio.compC5.data.channel = none →
      (Audio.onAssetRemoved Audio.compC5 "a").2 = []) ∧
    (Audio.compC5.data.currentSource = some "a" → ∀ c, Audio.compC5.data.channel = some c →
      (Audio.onAssetRemoved Audio.compC5 "a").2 = [Audio.BackendCall.stopCh c.id]) ∧
    (Audio.compC5.data.currentSource ≠ some "a" →
      (Audio.onAssetRemoved Audio.compC5 "a").1.data.currentSource =
        Audio.compC5.data.currentSource ∧
      (Audio.onAssetRemoved Audio.compC5 "a").1.data.channel =
        Audio.compC5.data.channel ∧
      (Audio.onAssetRemoved Audio.compC5 "a").2 = []) :=
  onAssetRemoved_spec Audio.compC5 "a" 7 rfl

/-- C9: `play(name)` on an enabled component for a name absent from the source map
creates no new channel (and raises no error: the operation is total); a previously
live channel is still stopped and released first — the only backend call is that
stop — and `currentSource` and the source map keep their previous values. -/
theorem play_missing_source (s : Audio.ComponentState) (name : String)
    (hen : s.enabled = true) (hent : s.entityEnabled = true)
    (hmiss : Audio.lookupSource s.data.sources name = none) :
    (Audio.play s (some name)).1.data.channel = none ∧
    (Audio.play s (some name)).1.data.currentSource = s.data.currentSource ∧
    (Audio.play s (some name)).1.data.sources = s.data.sources ∧
    (s.data.channel = none → (Audio.play s (some name)).2 = []) ∧
    (∀ c, s.data.channel = some c →
      (Audio.play s (some name)).2 = [Audio.BackendCall.stopCh c.id]) := by
  cases hch : s.data.channel <;>
    simp [Audio.play, Audio.stop, hen, hent, hch, hmiss]

/-- C9 witness: `play("x")` at the concrete state `compC5`, whose source map has no
"x": the live channel is stopped and nothing new starts. -/
theorem play_missing_source_witness :
    (Audio.play Audio.compC5 (some "x")).1.data.channel = none ∧
    (Audio.play Audio.compC5 (some "x")).1.data.currentSource =
      Audio.compC5.data.currentSource ∧
    (Audio.play Audio.compC5 (some "x")).1.data.sources = Audio.compC5.data.sources ∧
    (Audio.compC5.data.channel = none → (Audio.play Audio.compC5 (some "x")).2 = []) ∧
    (∀ c, Audio.compC5.data.channel = some c →
      (Audio.play Audio.compC5 (some "x")).2 = [Audio.BackendCall.stopCh c.id]) :=
  play_missing_source Audio.compC5 "x" rfl rfl (by decide)
